import Mathlib

/-!
Verification of the Booking-Conflict & Payment-Reconciliation Engine of the
Anagha hospital front-desk backend.

The Python services are shallowly embedded as pure Lean functions over an
explicit database state (`DB`).  Each Supabase table is a `List` of rows;
`select ... .eq(...)` becomes `List.filter`, `.data[0]` becomes `.head?`,
`insert` appends and `update ... .eq(...)` maps over the list.  Wall-clock
values (`time.time()`, `datetime.now()`) and external HTTP effects (the
Razorpay REST API, HMAC-SHA256, JSON parsing/serialisation, MD5) are passed
in as explicit parameters, so every function is deterministic and
executable.  Python truthiness tests (`if not x:`) on optional/zero/empty
values are modelled by the `pyTruthy*` helpers.
-/

/-- Python truthiness of an optional integer: `None` and `0` are falsy. -/
def pyTruthyNat : Option Nat → Bool
  | none => false
  | some n => n != 0

/-- Python truthiness of an optional string: `None` and `""` are falsy. -/
def pyTruthyStr : Option String → Bool
  | none => false
  | some s => s != ""

/-- `x or y` for an optional string, as Python evaluates it. -/
def pyOrStr (x : Option String) (y : String) : String :=
  match x with
  | some s => if s = "" then y else s
  | none => y

/-- Python `int()` on a rational: truncation toward zero. -/
def pyInt (q : ℚ) : ℤ := if 0 ≤ q then ⌊q⌋ else ⌈q⌉

/-! ## Rows of the Supabase tables (the columns the engine reads/writes) -/

structure UserRow where
  id : Nat
  name : String
  mobile : String
  role : String
  is_active : Bool
  password_hash : String
deriving Repr, DecidableEq

structure Doctor where
  id : Nat
  hospital_id : Option Nat
  is_active : Bool
  name : String
deriving Repr, DecidableEq

structure Hospital where
  id : Nat
  status : String
  linked_account_id : Option String
deriving Repr, DecidableEq

/-- A row of `appointments`.  Dates are abstracted to `Nat` day ordinals
(`str(date)` is injective, so equality of the stored strings coincides with
equality of the ordinals). -/
structure Appointment where
  id : Nat
  user_id : Nat
  doctor_id : Nat
  hospital_id : Nat
  date : Nat
  time_slot : String
  status : String
  reason : String
deriving Repr, DecidableEq

structure Operation where
  id : Nat
  patient_id : Nat
  hospital_id : Option Nat
  status : String
deriving Repr, DecidableEq

/-- A row of `payments`.  `amount` is stored by the code as `str(amount)` and
always read back through `float(...)`, so it is modelled as the rational it
denotes.  Timestamp columns hold opaque strings. -/
structure Payment where
  id : Nat
  appointment_id : Option Nat
  operation_id : Option Nat
  user_id : Option Nat
  hospital_id : Option Nat
  amount : ℚ
  currency : String
  payment_method : String
  status : String
  internal_transaction_id : Option String
  razorpay_order_id : Option String
  razorpay_payment_id : Option String
  razorpay_signature : Option String
  gateway_transaction_id : Option String
  upi_transaction_id : Option String
  failure_reason : Option String
  failure_code : Option String
  initiated_at : Option String
  completed_at : Option String
  failed_at : Option String
  updated_at : Option String
deriving Repr, DecidableEq

/-- A row of `payment_webhooks` (the webhook dedup table). -/
structure WebhookRow where
  id : Nat
  webhook_id : String
  event_type : Option String
  payment_id : Option Nat
  razorpay_payment_id : Option String
  razorpay_order_id : Option String
  signature_verified : Bool
  processed : Bool
  processed_at : Option String
  processing_error : Option String
deriving Repr, DecidableEq

/-- The database state.  `nextId` supplies fresh serial primary keys. -/
structure DB where
  users : List UserRow
  doctors : List Doctor
  hospitals : List Hospital
  appointments : List Appointment
  operations : List Operation
  payments : List Payment
  webhooks : List WebhookRow
  nextId : Nat
deriving Repr, DecidableEq

/-- The authenticated caller (`current_user` dict). -/
structure CurrentUser where
  id : Nat
  hospital_id : Option Nat
  role : String
deriving Repr, DecidableEq

/-- Errors surface as `HTTPException(status_code, detail)`. -/
abbrev Err := Nat × String

/-! ## `services/appointment_service.py` — `AppointmentService` -/

namespace AppointmentService

/-- `is_valid_time_slot`. -/
def is_valid_time_slot (time_slot : String) : Bool :=
  time_slot ∈ [
    "09:30", "10:00", "10:30", "11:00", "11:30", "12:00",
    "12:30", "13:00", "13:30", "14:00", "14:30", "15:00", "15:30",
    "18:00", "18:30", "19:00", "19:30", "20:00", "20:30"]

/-- The booking-request dict passed to `process_booking`. -/
structure AppointmentData where
  doctor_id : Nat
  date : Nat
  time_slot : String
  reason : String
  patient_phone : String
  patient_name : String
deriving Repr, DecidableEq

/-- The `SELECT` of non-cancelled appointments for a (doctor, date, slot)
tuple (`process_booking` lines 54–58): the conflict existence check. -/
def conflictSelect (db : DB) (doctor_id : Nat) (date : Nat) (time_slot : String) :
    List Appointment :=
  db.appointments.filter fun a =>
    a.doctor_id == doctor_id && a.date == date && a.time_slot == time_slot &&
      a.status != "cancelled"

/-- Everything `process_booking` does before its `INSERT`: input validation,
doctor/hospital verification and the conflict `SELECT`.  Returns the
resolved `(doctor, hospital)` pair on success.  This phase only reads the
store. -/
def bookingCheckPhase (today : Nat) (db : DB) (data : AppointmentData)
    (current_user : CurrentUser) (is_guest : Bool) :
    Except Err (Doctor × Hospital) :=
  if ¬ is_valid_time_slot data.time_slot then
    .error (400, "Invalid time slot")
  else if data.date < today then
    .error (400, "Cannot book appointment for past dates")
  else
    match (db.doctors.filter fun d => d.id == data.doctor_id && d.is_active).head? with
    | none => .error (404, "Doctor not found")
    | some doctor =>
      if ¬ pyTruthyNat doctor.hospital_id then
        .error (400, "Doctor is not associated with any hospital")
      else
        let hospital_id := doctor.hospital_id.getD 0
        if ¬ is_guest && pyTruthyNat current_user.hospital_id &&
            current_user.hospital_id.getD 0 != hospital_id then
          .error (400, "Doctor does not belong to your selected hospital")
        else
          match (db.hospitals.filter fun h => h.id == hospital_id).head? with
          | none => .error (400, "Hospital not found or not approved")
          | some hospital =>
            if hospital.status != "approved" && hospital.status != "ACTIVE" then
              .error (400, "Hospital not found or not approved")
            else if ¬ (conflictSelect db data.doctor_id data.date data.time_slot).isEmpty then
              .error (400, "Time slot already booked")
            else
              .ok (doctor, hospital)

/-- The guest-user resolution of `process_booking` (lines 64–80):
look up an existing patient by mobile, else insert an inactive guest user.
`freshPasswordHash` stands for `get_password_hash(secrets.token_urlsafe(32))`. -/
def resolveGuestUser (db : DB) (data : AppointmentData) (freshPasswordHash : String) :
    DB × Nat :=
  match (db.users.filter fun u =>
      u.mobile == data.patient_phone.trim && u.role == "patient").head? with
  | some u => (db, u.id)
  | none =>
    let uid := db.nextId
    let guest : UserRow :=
      { id := uid, name := data.patient_name.trim,
        mobile := data.patient_phone.trim, role := "patient",
        is_active := false, password_hash := freshPasswordHash }
    ({ db with users := db.users ++ [guest], nextId := uid + 1 }, uid)

/-- The `INSERT` phase of `process_booking` (lines 63–93): guest resolution
followed by the unconditional insert of the `pending` appointment row. -/
def bookingInsertPhase (db : DB) (data : AppointmentData) (current_user : CurrentUser)
    (is_guest : Bool) (freshPasswordHash : String) (hospital_id : Nat) :
    DB × Appointment :=
  let (db1, user_id) :=
    if is_guest then resolveGuestUser db data freshPasswordHash
    else (db, current_user.id)
  let apt : Appointment :=
    { id := db1.nextId, user_id := user_id, doctor_id := data.doctor_id,
      hospital_id := hospital_id, date := data.date, time_slot := data.time_slot,
      status := "pending", reason := data.reason }
  ({ db1 with appointments := db1.appointments ++ [apt], nextId := db1.nextId + 1 }, apt)

/-- `AppointmentService.process_booking`: the check phase (a separate
`SELECT`) followed by the insert phase (a separate `INSERT`) — the two store
operations are sequentially composed, with no atomicity between them. -/
def process_booking (today : Nat) (freshPasswordHash : String) (db : DB)
    (data : AppointmentData) (current_user : CurrentUser) (is_guest : Bool) :
    DB × Except Err Appointment :=
  match bookingCheckPhase today db data current_user is_guest with
  | .error e => (db, .error e)
  | .ok (doctor, _hospital) =>
    let (db', apt) :=
      bookingInsertPhase db data current_user is_guest freshPasswordHash
        (doctor.hospital_id.getD 0)
    (db', .ok apt)

/-- The at-most-one-active-booking-per-slot invariant of the spec,
as an executable check: every non-cancelled appointment is the only
non-cancelled row for its (doctor, date, slot) tuple. -/
def slotInvariant (db : DB) : Bool :=
  db.appointments.all fun a =>
    a.status == "cancelled" || (conflictSelect db a.doctor_id a.date a.time_slot).length ≤ 1

end AppointmentService

/-! ## `payment_gateway.py` — `PaymentGateway` (module-level Razorpay client)

Credentials come from the environment; the HTTP round-trip to
`POST /v1/orders` is abstracted as a `GatewayOutcome` parameter. -/

/-- The Razorpay credentials loaded from the environment (empty string means
the variable is unset, which Python treats as falsy). -/
structure GatewayEnv where
  key_id : String
  key_secret : String
  webhook_secret : String
deriving Repr, DecidableEq

/-- Outcome of the `requests.post(...)` call creating an order: an HTTP
response carrying the status code and the `id` field of the JSON body, or a
raised transport exception. -/
inductive GatewayOutcome where
  | resp (statusCode : Nat) (order_id : String)
  | exn
deriving Repr, DecidableEq

/-- The dict returned by `PaymentGateway.create_order` /
`RazorpayService.create_razorpay_order`. -/
structure OrderDict where
  order_id : String
  amount : ℚ
  currency : String
  status : String
  key_id : Option String
  payment_method : Option String
  upi_order : Bool
  internal_transaction_id : Option String
deriving Repr, DecidableEq

namespace PaymentGateway

/-- `PaymentGateway._create_upi_order`: the fallback used whenever Razorpay
is unavailable.  `nowTs` is `int(datetime.now().timestamp())`. -/
def createUpiOrder (nowTs : Nat) (amount : ℚ) : OrderDict :=
  { order_id := "UPI_" ++ toString nowTs, amount := amount, currency := "INR",
    status := "created", key_id := none, payment_method := some "upi",
    upi_order := true, internal_transaction_id := none }

/-- `PaymentGateway.create_order`.  On missing credentials, non-2xx response
or a transport exception it silently falls back to `_create_upi_order`; it
never returns `None` and never raises. -/
def create_order (env : GatewayEnv) (outcome : GatewayOutcome) (nowTs : Nat)
    (amount : ℚ) (currency : String) (receipt : Option String) : OrderDict :=
  if env.key_id == "" || env.key_secret == "" then
    createUpiOrder nowTs amount
  else
    match outcome with
    | .resp statusCode oid =>
      if statusCode == 200 || statusCode == 201 then
        { order_id := oid, amount := amount, currency := currency,
          status := "created", key_id := some env.key_id, payment_method := none,
          upi_order := false, internal_transaction_id := none }
      else
        createUpiOrder nowTs amount
    | .exn => createUpiOrder nowTs amount

/-- `create_order` failed to reach Razorpay in a transient/unavailable way:
missing credentials, a non-2xx response, or a transport error. -/
def gatewayUnavailable (env : GatewayEnv) (outcome : GatewayOutcome) : Prop :=
  env.key_id = "" ∨ env.key_secret = "" ∨ outcome = .exn ∨
    (∃ c oid, outcome = .resp c oid ∧ c ≠ 200 ∧ c ≠ 201)

/-- `PaymentGateway.verify_webhook_signature`: HMAC-SHA256 of the payload
string under `RAZORPAY_WEBHOOK_SECRET`, compared (in constant time) with the
header value.  `hmacSha256` abstracts the keyed hash. -/
def verify_webhook_signature (hmacSha256 : String → String → String)
    (env : GatewayEnv) (payload : String) (signature : String) : Bool :=
  if env.webhook_secret == "" then false
  else hmacSha256 env.webhook_secret payload == signature

end PaymentGateway

/-! ## `services/razorpay_service.py` — `RazorpayService` -/

namespace RazorpayService

/-- `reference_id = appointment_id or operation_id or 0` under Python
truthiness. -/
def referenceId (appointment_id operation_id : Option Nat) : Nat :=
  if pyTruthyNat appointment_id then appointment_id.getD 0
  else if pyTruthyNat operation_id then operation_id.getD 0
  else 0

/-- `RazorpayService.generate_idempotency_key`: built from the requester id,
the booking reference and `int(time.time())`, with an 8-hex-character MD5
suffix (`md5hex8` abstracts `hashlib.md5(...).hexdigest()[:8]`). -/
def generate_idempotency_key (md5hex8 : String → String) (user_id : Nat)
    (appointment_id operation_id : Option Nat) (ts : Nat) : String :=
  let reference_id := referenceId appointment_id operation_id
  let hash_input := toString user_id ++ "_" ++ toString reference_id ++ "_" ++ toString ts
  toString user_id ++ "_" ++ toString reference_id ++ "_" ++ toString ts ++ "_" ++
    md5hex8 hash_input

/-- `RazorpayService.create_razorpay_order`: regenerates an idempotency key,
delegates to `PaymentGateway.create_order` and stamps the key into the
result.  Since `PaymentGateway.create_order` never returns `None`, the
`if not order_result: return None` branch is dead and the result is always
`some`. -/
def create_razorpay_order (env : GatewayEnv) (outcome : GatewayOutcome)
    (md5hex8 : String → String) (ts : Nat) (amount : ℚ) (currency : String)
    (user_id : Nat) (appointment_id operation_id : Option Nat) :
    Option OrderDict :=
  let internal_transaction_id :=
    generate_idempotency_key md5hex8 user_id appointment_id operation_id ts
  let order_result := PaymentGateway.create_order env outcome ts amount currency
    (some ("receipt_" ++ internal_transaction_id))
  some { order_result with internal_transaction_id := some internal_transaction_id }

end RazorpayService

/-! ## `routers/payments.py` — payment endpoints -/

/-- Python `f"{x}"` of an optional string (`None` prints as `"None"`). -/
def pyStr (x : Option String) : String := x.getD "None"

/-- The fields of the Razorpay `GET /v1/payments/{id}` JSON that the code
reads.  `amount` is the provider's amount in paise (`.get("amount", 0)`). -/
structure RzpPaymentDetails where
  id : Option String
  order_id : Option String
  status : Option String
  amount : ℚ
  currency : Option String
  method : Option String
  error_description : Option String
deriving Repr, DecidableEq

/-- Response of `PUT /api/payments/complete/{payment_id}`. -/
structure CompleteResp where
  message : String
deriving Repr, DecidableEq

/-- `complete_payment` (`PUT /api/payments/complete/{payment_id}`): looks the
payment up by id, unconditionally sets its status to `COMPLETED`, and
confirms the linked appointment or operation.  The authenticated
`current_user` is never consulted beyond authentication. -/
def complete_payment (now : String) (db : DB) (payment_id : Nat)
    (upi_transaction_id : Option String) (current_user : CurrentUser) :
    DB × Except Err CompleteResp :=
  match (db.payments.filter fun p => p.id == payment_id).head? with
  | none => (db, .error (404, "Payment not found"))
  | some payment =>
    let updRow : Payment → Payment := fun p =>
      if p.id == payment_id then
        { p with
          status := "COMPLETED"
          completed_at := some now
          updated_at := some now
          upi_transaction_id :=
            if pyTruthyStr upi_transaction_id then upi_transaction_id
            else p.upi_transaction_id }
      else p
    let confirmApt : Appointment → Appointment := fun a =>
      if some a.id == payment.appointment_id then { a with status := "confirmed" } else a
    let confirmOp : Operation → Operation := fun o =>
      if some o.id == payment.operation_id then { o with status := "confirmed" } else o
    let db1 := { db with payments := db.payments.map updRow }
    let db2 :=
      if pyTruthyNat payment.appointment_id then
        { db1 with appointments := db1.appointments.map confirmApt }
      else if pyTruthyNat payment.operation_id then
        { db1 with operations := db1.operations.map confirmOp }
      else db1
    (db2, .ok { message := "Payment marked as completed" })

/-- Response of `POST /api/payments/{payment_id}/verify`. -/
structure VerifyResp where
  verified : Bool
  status : String
  razorpay_status : Option String
  amount : ℚ
  currency : Option String
  method : Option String
deriving Repr, DecidableEq

/-- `verify_payment_manually` (`POST /api/payments/{payment_id}/verify`,
doctor-authenticated): re-fetches the payment from Razorpay (`rzpFetch`
abstracts `RazorpayService.verify_payment_from_razorpay`) and
unconditionally overwrites the stored status with the gateway-derived one
(`captured → COMPLETED`, `failed → FAILED`, `authorized → PENDING`). -/
def verify_payment_manually (now : String) (rzpFetch : String → Option RzpPaymentDetails)
    (db : DB) (payment_id : Nat) (current_doctor : CurrentUser) :
    DB × Except Err VerifyResp :=
  match (db.payments.filter fun p => p.id == payment_id).head? with
  | none => (db, .error (404, "Payment not found"))
  | some payment =>
    if ¬ pyTruthyStr payment.razorpay_payment_id then
      (db, .error (400, "Payment does not have Razorpay payment ID"))
    else
      match rzpFetch (pyStr payment.razorpay_payment_id) with
      | none => (db, .error (404, "Payment not found in Razorpay"))
      | some rzp =>
        let new_status : Option String :=
          if rzp.status == some "captured" then some "COMPLETED"
          else if rzp.status == some "failed" then some "FAILED"
          else if rzp.status == some "authorized" then some "PENDING"
          else none
        let updRow : String → Payment → Payment := fun ns p =>
          if p.id == payment_id then
            { p with
              status := ns
              updated_at := some now
              completed_at := if ns == "COMPLETED" then some now else p.completed_at
              failed_at := if ns == "FAILED" then some now else p.failed_at
              failure_reason :=
                if ns == "FAILED" then rzp.error_description else p.failure_reason }
          else p
        let db1 :=
          match new_status with
          | none => db
          | some ns => { db with payments := db.payments.map (updRow ns) }
        let resp : VerifyResp :=
          { verified := true
            status := new_status.getD payment.status
            razorpay_status := rzp.status
            amount := rzp.amount / 100
            currency := rzp.currency
            method := rzp.method }
        (db1, .ok resp)

/-- The `RazorpayOrderCreate` request body. -/
structure RazorpayOrderCreate where
  appointment_id : Option Nat
  operation_id : Option Nat
  hospital_registration : Bool
  amount : ℚ
  currency : String
deriving Repr, DecidableEq

/-- Response of `POST /api/payments/create-order`. -/
structure OrderResp where
  payment_id : Nat
  order_id : String
  amount : ℚ
  currency : String
  key_id : String
  status : String
deriving Repr, DecidableEq

/-- Outcome of one `create_razorpay_order` request: the new store state,
whether the gateway was called, and the HTTP result. -/
structure OrderCallOut where
  db : DB
  gatewayCalled : Bool
  result : Except Err OrderResp
deriving Repr

/-- The hospital-resolution and ownership-authorisation block of
`create_razorpay_order` (lines 503–536): looks the appointment or operation
up and checks the caller owns it, returning its `hospital_id`. -/
def resolveBookingHospital (db : DB) (order_data : RazorpayOrderCreate)
    (current_user : CurrentUser) : Except Err (Option Nat) :=
  if pyTruthyNat order_data.appointment_id then
    match (db.appointments.filter fun a =>
        some a.id == order_data.appointment_id).head? with
    | none => .error (404, "Appointment not found")
    | some appointment =>
      if appointment.user_id != current_user.id then
        .error (403, "Not authorized to create payment for this appointment")
      else .ok (some appointment.hospital_id)
  else
    match (db.operations.filter fun o =>
        some o.id == order_data.operation_id).head? with
    | none => .error (404, "Operation not found")
    | some operation =>
      if operation.patient_id != current_user.id then
        .error (403, "Not authorized to create payment for this operation")
      else .ok operation.hospital_id

/-- `create_razorpay_order` (`POST /api/payments/create-order`): validates
the request, resolves and authorises the booking, computes the idempotency
key, returns any existing payment that already carries a gateway order id
(no gateway call), and otherwise creates an order and inserts a `PENDING`
payment row.  `ts` is the `int(time.time())` observed by this request. -/
def create_razorpay_order (env : GatewayEnv) (outcome : GatewayOutcome)
    (md5hex8 : String → String) (ts : Nat) (now : String) (db : DB)
    (order_data : RazorpayOrderCreate) (current_user : CurrentUser) : OrderCallOut :=
  if ¬ (pyTruthyNat order_data.appointment_id || pyTruthyNat order_data.operation_id ||
      order_data.hospital_registration) then
    ⟨db, false, .error (400,
      "Either appointment_id, operation_id, or hospital_registration is required")⟩
  else if order_data.amount ≤ 0 then
    ⟨db, false, .error (400, "Amount must be greater than 0")⟩
  else
    match resolveBookingHospital db order_data current_user with
    | .error e => ⟨db, false, .error e⟩
    | .ok hid? =>
      if ¬ pyTruthyNat hid? then
        ⟨db, false, .error (400, "Hospital not found for this appointment/operation")⟩
      else
        let hospital_id := hid?.getD 0
        let internal_transaction_id := RazorpayService.generate_idempotency_key md5hex8
          current_user.id order_data.appointment_id order_data.operation_id ts
        let proceed : OrderCallOut :=
          match RazorpayService.create_razorpay_order env outcome md5hex8 ts
              order_data.amount order_data.currency current_user.id
              order_data.appointment_id order_data.operation_id with
          | none => ⟨db, true, .error (500, "Failed to create Razorpay order")⟩
          | some order_result =>
            let payment_record : Payment :=
              { id := db.nextId, appointment_id := order_data.appointment_id,
                operation_id := order_data.operation_id,
                user_id := some current_user.id, hospital_id := some hospital_id,
                amount := order_data.amount, currency := order_data.currency,
                payment_method := "razorpay", status := "PENDING",
                internal_transaction_id := some internal_transaction_id,
                razorpay_order_id := some order_result.order_id,
                razorpay_payment_id := none, razorpay_signature := none,
                gateway_transaction_id := none, upi_transaction_id := none,
                failure_reason := none, failure_code := none,
                initiated_at := some now, completed_at := none, failed_at := none,
                updated_at := none }
            let db1 := { db with
              payments := db.payments ++ [payment_record]
              nextId := db.nextId + 1 }
            let resp : OrderResp :=
              { payment_id := payment_record.id, order_id := order_result.order_id,
                amount := order_data.amount, currency := order_data.currency,
                key_id := order_result.key_id.getD env.key_id, status := "PENDING" }
            ⟨db1, true, .ok resp⟩
        match (db.payments.filter fun p =>
            p.internal_transaction_id == some internal_transaction_id).head? with
        | some payment =>
          if pyTruthyStr payment.razorpay_order_id then
            let resp : OrderResp :=
              { payment_id := payment.id
                order_id := payment.razorpay_order_id.getD ""
                amount := payment.amount
                currency := payment.currency
                key_id := env.key_id
                status := payment.status }
            ⟨db, false, .ok resp⟩
          else proceed
        | none => proceed

/-! ## Webhook machinery (`razorpay_webhook` + `RazorpayService` webhook helpers)

JSON handling is abstracted: `parseJson` stands for `json.loads` on the raw
request body (`none` models a raised `JSONDecodeError`) and `compactDumps`
stands for `json.dumps(payload, separators=(',', ':'))`, the compact
re-serialisation that `RazorpayService.process_webhook_event` re-signs. -/

/-- The `payload.payment.entity` sub-dict of a Razorpay webhook.  `none` in
the enclosing payload models a missing/empty entity (Python falsiness of
`{}`). -/
structure PaymentEntity where
  id : Option String
  order_id : Option String
  error_description : Option String
  error_code : Option String
deriving Repr, DecidableEq

/-- The parsed webhook JSON body (the fields the code reads). -/
structure WebhookPayload where
  id : Option String
  event : Option String
  entity : Option PaymentEntity
deriving Repr, DecidableEq

/-- The extraction result `process_webhook_event` hands back to the router. -/
structure WebhookInfo where
  webhook_id : String
  event_type : Option String
  razorpay_payment_id : Option String
  razorpay_order_id : Option String
  payment_entity : PaymentEntity
deriving Repr, DecidableEq

namespace RazorpayService

/-- `RazorpayService.process_webhook_event`: re-verifies the signature over
the compact `json.dumps` of the parsed payload, then extracts the event
fields.  Pure — it touches no store state. -/
def process_webhook_event (hmacSha256 : String → String → String) (env : GatewayEnv)
    (compactDumps : WebhookPayload → String) (payload : WebhookPayload)
    (signature : String) : Except String WebhookInfo :=
  if ¬ PaymentGateway.verify_webhook_signature hmacSha256 env (compactDumps payload)
      signature then
    .error "Invalid webhook signature"
  else
    match payload.entity with
    | none => .error "No payment entity in webhook"
    | some entity =>
      if ¬ pyTruthyStr payload.id then .error "No webhook ID"
      else
        .ok { webhook_id := payload.id.getD ""
              event_type := payload.event
              razorpay_payment_id := entity.id
              razorpay_order_id := entity.order_id
              payment_entity := entity }

/-- `RazorpayService.check_webhook_idempotency`: true iff the first
`payment_webhooks` row with this provider event id is marked processed. -/
def check_webhook_idempotency (db : DB) (webhook_id : String) : Bool :=
  match (db.webhooks.filter fun r => r.webhook_id == webhook_id).head? with
  | some r => r.processed
  | none => false

/-- `RazorpayService.save_webhook_event`: inserts the dedup row with
`processed = false` and returns its id. -/
def save_webhook_event (db : DB) (webhook_id : String) (event_type : Option String)
    (payment_id : Option Nat) (razorpay_payment_id razorpay_order_id : Option String)
    (signature_verified : Bool) : DB × Nat :=
  let rid := db.nextId
  let row : WebhookRow :=
    { id := rid, webhook_id := webhook_id, event_type := event_type,
      payment_id := payment_id, razorpay_payment_id := razorpay_payment_id,
      razorpay_order_id := razorpay_order_id,
      signature_verified := signature_verified, processed := false,
      processed_at := none, processing_error := none }
  ({ db with webhooks := db.webhooks ++ [row], nextId := rid + 1 }, rid)

/-- `RazorpayService.mark_webhook_processed`: sets `processed = true` on
every row with this provider event id, recording the payment id and the
processing error when they are truthy. -/
def mark_webhook_processed (now : String) (db : DB) (webhook_id : String)
    (payment_id : Option Nat) (error : Option String) : DB :=
  let upd : WebhookRow → WebhookRow := fun r =>
    if r.webhook_id == webhook_id then
      { r with
        processed := true
        processed_at := some now
        payment_id := if pyTruthyNat payment_id then payment_id else r.payment_id
        processing_error := if pyTruthyStr error then error else r.processing_error }
    else r
  { db with webhooks := db.webhooks.map upd }

end RazorpayService

/-- A webhook HTTP response: the endpoint returns plain dicts for every
outcome, so FastAPI always answers HTTP 200. -/
structure WebhookResp where
  http : Nat
  status : String
  message : String
deriving Repr, DecidableEq

/-- `razorpay_webhook` (`POST /api/payments/webhook`): signature check over
the raw body, re-check/extraction via `process_webhook_event`, dedup,
payment lookup by gateway order id, cross-verification against a direct
Razorpay fetch (`rzpFetch`), then the `payment.captured` / `payment.failed`
state transitions.  The blanket `except` turns any raised error into an
HTTP-200 `{"status": "error"}` body (modelled for the JSON-parse failure by
the message `"exception"`). -/
def razorpay_webhook (env : GatewayEnv) (hmacSha256 : String → String → String)
    (parseJson : String → Option WebhookPayload)
    (compactDumps : WebhookPayload → String)
    (rzpFetch : String → Option RzpPaymentDetails) (now : String)
    (db : DB) (rawBody : String) (sigHeader : Option String) : DB × WebhookResp :=
  match parseJson rawBody with
  | none => (db, ⟨200, "error", "exception"⟩)
  | some payload =>
    match sigHeader with
    | none => (db, ⟨200, "error", "Missing signature"⟩)
    | some sig =>
      if ¬ PaymentGateway.verify_webhook_signature hmacSha256 env rawBody sig then
        (db, ⟨200, "error", "Invalid signature"⟩)
      else
        match RazorpayService.process_webhook_event hmacSha256 env compactDumps
            payload sig with
        | .error e => (db, ⟨200, "error", e⟩)
        | .ok info =>
          if RazorpayService.check_webhook_idempotency db info.webhook_id then
            (db, ⟨200, "success", "Already processed"⟩)
          else
            let (db1, rid) := RazorpayService.save_webhook_event db info.webhook_id
              info.event_type none info.razorpay_payment_id info.razorpay_order_id true
            if ¬ pyTruthyNat (some rid) then
              (db1, ⟨200, "error", "Failed to save webhook"⟩)
            else
              match (db1.payments.filter fun p =>
                  p.razorpay_order_id == info.razorpay_order_id).head? with
              | none =>
                let db2 := RazorpayService.mark_webhook_processed now db1 info.webhook_id
                  none (some ("Payment not found for order " ++ pyStr info.razorpay_order_id))
                (db2, ⟨200, "error", "Payment not found"⟩)
              | some payment =>
                match rzpFetch (pyStr info.razorpay_payment_id) with
                | none =>
                  let db2 := RazorpayService.mark_webhook_processed now db1 info.webhook_id
                    (some payment.id) (some "Could not fetch payment from Razorpay")
                  (db2, ⟨200, "error", "Payment verification failed"⟩)
                | some rzp =>
                  if rzp.order_id != info.razorpay_order_id ||
                      rzp.amount / 100 != payment.amount then
                    let db2 := RazorpayService.mark_webhook_processed now db1
                      info.webhook_id (some payment.id) (some "Payment verification mismatch")
                    (db2, ⟨200, "error", "Payment verification mismatch"⟩)
                  else if info.event_type == some "payment.captured" then
                    let updRow : Payment → Payment := fun p =>
                      if p.id == payment.id then
                        { p with
                          status := "COMPLETED"
                          razorpay_payment_id := info.razorpay_payment_id
                          razorpay_signature := some sig
                          gateway_transaction_id := rzp.id
                          completed_at := some now
                          updated_at := some now }
                      else p
                    let confirmApt : Appointment → Appointment := fun a =>
                      if some a.id == payment.appointment_id then
                        { a with status := "confirmed" }
                      else a
                    let confirmOp : Operation → Operation := fun o =>
                      if some o.id == payment.operation_id then
                        { o with status := "confirmed" }
                      else o
                    let db2 := { db1 with payments := db1.payments.map updRow }
                    let db3 :=
                      if pyTruthyNat payment.appointment_id then
                        { db2 with appointments := db2.appointments.map confirmApt }
                      else if pyTruthyNat payment.operation_id then
                        { db2 with operations := db2.operations.map confirmOp }
                      else db2
                    let db4 := RazorpayService.mark_webhook_processed now db3
                      info.webhook_id (some payment.id) none
                    (db4, ⟨200, "success", "Webhook processed"⟩)
                  else if info.event_type == some "payment.failed" then
                    let failure_reason := pyOrStr info.payment_entity.error_description
                      (info.payment_entity.error_code.getD "Unknown error")
                    let updRow : Payment → Payment := fun p =>
                      if p.id == payment.id then
                        { p with
                          status := "FAILED"
                          razorpay_payment_id := info.razorpay_payment_id
                          failure_reason := some failure_reason
                          failure_code := info.payment_entity.error_code
                          failed_at := some now
                          updated_at := some now }
                      else p
                    let db2 := { db1 with payments := db1.payments.map updRow }
                    let db3 := RazorpayService.mark_webhook_processed now db2
                      info.webhook_id (some payment.id) none
                    (db3, ⟨200, "success", "Webhook processed"⟩)
                  else
                    (db1, ⟨200, "success", "Webhook processed"⟩)

/-! ## `services/payment_service.py` — commission split -/

/-- `PLATFORM_COMMISSION_RATE`: hospital gets 90%, platform keeps 10%. -/
def PLATFORM_COMMISSION_RATE : ℚ := 0.10

/-- The arguments of a `gateway.create_transfer(...)` call. -/
structure TransferCall where
  payment_id : String
  linked_account_id : String
  amount_paise : ℤ
deriving Repr, DecidableEq

namespace PaymentService

/-- `PaymentService._process_split`: resolves the hospital of the payment's
booking — but only through `appointment_id`; a payment linked to an
operation never yields a hospital here — then, if the hospital has a
truthy `linked_account_id`, computes
`int(int(float(amount) * 100) * (1 - PLATFORM_COMMISSION_RATE))` and calls
`create_transfer` with it.  Returns the transfer call made, if any.
(Python evaluates the inner arithmetic in IEEE doubles; for amounts below
10^12 paise `1 - 0.1` is exactly the double `0.9` and both `int(...)`
truncations agree with the exact rational computation modelled here.) -/
def process_split (db : DB) (p_data : Payment) (gw_payment_id : String) :
    Option TransferCall :=
  let hospital_id : Option Nat :=
    if pyTruthyNat p_data.appointment_id then
      match (db.appointments.filter fun a => some a.id == p_data.appointment_id).head? with
      | some a => some a.hospital_id
      | none => none
    else none
  if ¬ pyTruthyNat hospital_id then none
  else
    let linked_id : Option String :=
      match (db.hospitals.filter fun h => h.id == hospital_id.getD 0).head? with
      | some h => h.linked_account_id
      | none => none
    if ¬ pyTruthyStr linked_id then none
    else
      let amount_paise := pyInt (p_data.amount * 100)
      let transfer_amt := pyInt ((amount_paise : ℚ) * (1 - PLATFORM_COMMISSION_RATE))
      some { payment_id := gw_payment_id, linked_account_id := linked_id.getD "",
             amount_paise := transfer_amt }

end PaymentService

/-! ## Concrete fixtures used by the counterexamples and witnesses -/

/-- An approved hospital with a linked Razorpay payout sub-account. -/
def hospital3 : Hospital := ⟨3, "approved", some "acc_XY"⟩

/-- An active doctor affiliated with `hospital3`. -/
def doctor7 : Doctor := ⟨7, some 3, true, "Dr. A"⟩

def patientA : CurrentUser := ⟨1, none, "patient"⟩

def patientB : CurrentUser := ⟨2, none, "patient"⟩

/-- A booking request for doctor 7, day 100, slot 10:00. -/
def bookingData : AppointmentService.AppointmentData := ⟨7, 100, "10:00", "", "", ""⟩

def emptyDB : DB := ⟨[], [], [], [], [], [], [], 1⟩

/-- The store before the concurrent booking scenario: doctor and approved
hospital exist, no appointment occupies the slot. -/
def dbBooking : DB :=
  { emptyDB with
    doctors := [doctor7]
    hospitals := [hospital3]
    nextId := 10 }

/-- A payment row with every optional column empty (the other fixtures
override the relevant columns). -/
def basePayment : Payment :=
  { id := 0, appointment_id := none, operation_id := none, user_id := none,
    hospital_id := none, amount := 0, currency := "INR",
    payment_method := "razorpay", status := "PENDING",
    internal_transaction_id := none, razorpay_order_id := none,
    razorpay_payment_id := none, razorpay_signature := none,
    gateway_transaction_id := none, upi_transaction_id := none,
    failure_reason := none, failure_code := none, initiated_at := none,
    completed_at := none, failed_at := none, updated_at := none }

/-- A payment already in the terminal `FAILED` state. -/
def failedPayment : Payment := { basePayment with id := 1, status := "FAILED", amount := 500 }

def dbFailed : DB := { emptyDB with payments := [failedPayment], nextId := 2 }

/-- A pending appointment (id 11) of `patientA` with `doctor7`. -/
def apt11 : Appointment := ⟨11, 1, 7, 3, 100, "10:00", "pending", ""⟩

/-- The store before an order-creation request for appointment 11. -/
def dbOrder : DB :=
  { emptyDB with
    doctors := [doctor7]
    hospitals := [hospital3]
    appointments := [apt11]
    nextId := 50 }

/-- Razorpay credentials all configured. -/
def envRzp : GatewayEnv := ⟨"rzp_key", "rzp_secret", "whsec"⟩

/-- A stand-in for `hashlib.md5(...).hexdigest()[:8]`. -/
def md5c : String → String := fun _ => "ab12cd34"

/-- Order request for appointment 11, 500.00 INR. -/
def orderReqA : RazorpayOrderCreate := ⟨some 11, none, false, 500, "INR"⟩

/-- A confirmed operation (id 21) of `patientA` at `hospital3`. -/
def op21 : Operation := ⟨21, 1, some 3, "confirmed"⟩

def dbSplit : DB := { emptyDB with hospitals := [hospital3], operations := [op21] }

/-- A captured 500.00 INR payment linked to operation 21 (not to any
appointment). -/
def opPayment : Payment :=
  { basePayment with
    id := 2
    operation_id := some 21
    amount := 500
    status := "COMPLETED" }

/-- A concrete keyed hash standing in for HMAC-SHA256 (injective in the
message for a fixed key, like a collision-free MAC). -/
def hmacC : String → String → String := fun key msg => key ++ "|" ++ msg

/-- The parsed `payment.captured` webhook for order `ord_1`. -/
def payloadCap : WebhookPayload :=
  ⟨some "evt_1", some "payment.captured", some ⟨some "pay_1", some "ord_1", none, none⟩⟩

/-- `json.loads` for the concrete webhook scenario: the raw body `"RAW"`
parses to `payloadCap`. -/
def parseC : String → Option WebhookPayload :=
  fun s => if s = "RAW" then some payloadCap else none

/-- Compact `json.dumps` for the concrete scenario: `payloadCap`
re-serialises to the very bytes that were delivered. -/
def dumpsC : WebhookPayload → String := fun _ => "RAW"

/-- Razorpay's authoritative record of `pay_1`: captured, 50000 paise,
order `ord_1`. -/
def rzpCap : RzpPaymentDetails :=
  ⟨some "pay_1", some "ord_1", some "captured", 50000, some "INR", some "card", none⟩

def fetchC : String → Option RzpPaymentDetails :=
  fun s => if s = "pay_1" then some rzpCap else none

/-- The `PENDING` payment awaiting webhook confirmation for order `ord_1`,
linked to appointment 11. -/
def pendingPayment : Payment :=
  { basePayment with
    id := 5
    appointment_id := some 11
    user_id := some 1
    amount := 500
    razorpay_order_id := some "ord_1" }

/-- The store on which the webhook scenarios run. -/
def dbHook : DB :=
  { emptyDB with
    doctors := [doctor7]
    hospitals := [hospital3]
    appointments := [apt11]
    payments := [pendingPayment]
    nextId := 60 }

/-- A payment already in the terminal `COMPLETED` state, carrying a gateway
payment id. -/
def completedPayment : Payment :=
  { basePayment with
    id := 3
    status := "COMPLETED"
    razorpay_payment_id := some "pay_7" }

def dbCompleted : DB := { emptyDB with payments := [completedPayment], nextId := 4 }

/-- Razorpay reports `pay_7` as merely `authorized` (not yet captured). -/
def rzpAuth : RzpPaymentDetails :=
  ⟨some "pay_7", some "ord_7", some "authorized", 50000, some "INR", some "card", none⟩

def fetchAuth : String → Option RzpPaymentDetails :=
  fun s => if s = "pay_7" then some rzpAuth else none

/-- The booking store once the slot (doctor 7, day 100, "10:00") is taken by
the non-cancelled `apt11`. -/
def dbConflict : DB := { dbBooking with appointments := [apt11] }

/-- The idempotency key patient A's order request computes at
`int(time.time()) = 1700000000`. -/
def keyA : String :=
  RazorpayService.generate_idempotency_key md5c 1 (some 11) none 1700000000

/-- The order dict the gateway hands back when Razorpay answers 200 with
order id `ord_9`. -/
def od1Fix : OrderDict :=
  ⟨"ord_9", 500, "INR", "created", some "rzp_key", none, false, some keyA⟩

/-- The payment row the first order-creation call inserts. -/
def recA : Payment :=
  { basePayment with
    id := 50
    appointment_id := some 11
    user_id := some 1
    hospital_id := some 3
    amount := 500
    internal_transaction_id := some keyA
    razorpay_order_id := some "ord_9"
    initiated_at := some "t1" }

/-- The store after the first successful order-creation call. -/
def dbOrder2 : DB := { dbOrder with payments := [recA], nextId := 51 }

/-- A `payment.captured` webhook for an order id that no payment row
carries. -/
def payloadMiss : WebhookPayload :=
  ⟨some "evt_2", some "payment.captured", some ⟨some "pay_2", some "ord_missing", none, none⟩⟩

def parseMiss : String → Option WebhookPayload :=
  fun s => if s = "RAWM" then some payloadMiss else none

def dumpsMiss : WebhookPayload → String := fun _ => "RAWM"

/-! ## Theorems -/

/-- C1 (counterexample): `process_booking` is a check-then-insert without
atomicity.  In the interleaving where both requests run their conflict
`SELECT` against the initial store before either `INSERT` executes, both
check phases pass and both inserts land, leaving two non-cancelled
appointments for (doctor 7, day 100, slot "10:00") — the claimed invariant
and the claimed atomicity fail. -/
theorem c1_counterexample :
    AppointmentService.bookingCheckPhase 100 dbBooking bookingData patientA false =
      .ok (doctor7, hospital3) ∧
    AppointmentService.bookingCheckPhase 100 dbBooking bookingData patientB false =
      .ok (doctor7, hospital3) ∧
    AppointmentService.slotInvariant dbBooking = true ∧
    (AppointmentService.conflictSelect
      ((AppointmentService.bookingInsertPhase
        ((AppointmentService.bookingInsertPhase dbBooking bookingData patientA false
          "h1" 3).1) bookingData patientB false "h2" 3).1) 7 100 "10:00").length = 2 ∧
    AppointmentService.slotInvariant
      ((AppointmentService.bookingInsertPhase
        ((AppointmentService.bookingInsertPhase dbBooking bookingData patientA false
          "h1" 3).1) bookingData patientB false "h2" 3).1) = false :=
  ⟨rfl, rfl, rfl, rfl, rfl⟩

/-- C2 (counterexample): the payment of `dbFailed` is in the terminal
`FAILED` state, yet a later `complete_payment` call moves it to
`COMPLETED` — terminal monotonicity does not hold. -/
theorem c2_counterexample :
    dbFailed.payments.map Payment.status = ["FAILED"] ∧
    (complete_payment "t1" dbFailed 1 none patientB).1.payments.map Payment.status =
      ["COMPLETED"] :=
  ⟨rfl, rfl⟩

/-- C3 (counterexample): the gateway order creation fails with HTTP 503
(a transient/unavailable error), yet `create_razorpay_order` succeeds with
a fallback `UPI_...` order id and persists a new `PENDING` payment row —
no retryable error is surfaced and a Payment row is persisted. -/
theorem c3_counterexample :
    PaymentGateway.gatewayUnavailable envRzp (.resp 503 "oops") ∧
    dbOrder.payments = [] ∧
    (create_razorpay_order envRzp (.resp 503 "oops") md5c 1700000000 "t" dbOrder
        orderReqA patientA).db.payments.map (fun p => (p.status, p.razorpay_order_id)) =
      [("PENDING", some "UPI_1700000000")] ∧
    (create_razorpay_order envRzp (.resp 503 "oops") md5c 1700000000 "t" dbOrder
        orderReqA patientA).result =
      .ok ⟨50, "UPI_1700000000", 500, "INR", "rzp_key", "PENDING"⟩ :=
  ⟨Or.inr (Or.inr (Or.inr ⟨503, "oops", rfl, by decide, by decide⟩)), rfl, rfl, rfl⟩

/-- C8 (counterexample): `opPayment` is a captured payment whose booking is
operation 21 at `hospital3`, which has a linked payout account — yet
`_process_split` resolves the hospital only through `appointment_id`, so no
transfer at all is attempted for it. -/
theorem c8_counterexample :
    opPayment.operation_id = some 21 ∧
    op21.hospital_id = some 3 ∧
    hospital3.linked_account_id = some "acc_XY" ∧
    dbSplit.operations = [op21] ∧
    dbSplit.hospitals = [hospital3] ∧
    PaymentService.process_split dbSplit opPayment "pay_9" = none :=
  ⟨rfl, rfl, rfl, rfl, rfl, rfl⟩

/-- `complete_payment` unconditionally moves the looked-up payment to
`COMPLETED`, whatever its current status. -/
theorem complete_payment_sets_completed
    (now : String) (db : DB) (pid : Nat) (txn : Option String) (u : CurrentUser)
    (p : Payment) (h : (db.payments.filter fun q => q.id == pid).head? = some p) :
    ∀ q ∈ (complete_payment now db pid txn u).1.payments, q.id = pid →
      q.status = "COMPLETED" := by
  unfold complete_payment
  rw [h]
  simp only []
  intro q hq hid
  split at hq <;> (try split at hq) <;>
    (simp only [List.mem_map] at hq
     obtain ⟨x, hx, rfl⟩ := hq
     by_cases hxp : (x.id == pid) = true
     · rw [if_pos hxp]
     · exfalso
       rw [if_neg hxp] at hid
       exact hxp (beq_iff_eq.mpr hid))

/-- `complete_payment` reports success whenever the payment exists. -/
theorem complete_payment_result_ok
    (now : String) (db : DB) (pid : Nat) (txn : Option String) (u : CurrentUser)
    (p : Payment) (h : (db.payments.filter fun q => q.id == pid).head? = some p) :
    (complete_payment now db pid txn u).2 = .ok ⟨"Payment marked as completed"⟩ := by
  unfold complete_payment
  rw [h]

/-- `complete_payment` confirms the linked appointment. -/
theorem complete_payment_confirms_appointment
    (now : String) (db : DB) (pid : Nat) (txn : Option String) (u : CurrentUser)
    (p : Payment) (h : (db.payments.filter fun q => q.id == pid).head? = some p)
    (hA : pyTruthyNat p.appointment_id = true) :
    ∀ a ∈ (complete_payment now db pid txn u).1.appointments,
      some a.id = p.appointment_id → a.status = "confirmed" := by
  unfold complete_payment
  rw [h]
  simp only []
  rw [if_pos hA]
  intro a ha hid
  simp only [List.mem_map] at ha
  obtain ⟨x, hx, rfl⟩ := ha
  by_cases hxp : (some x.id == p.appointment_id) = true
  · rw [if_pos hxp]
  · exfalso
    rw [if_neg hxp] at hid
    exact hxp (beq_iff_eq.mpr hid)

/-- `complete_payment` confirms the linked operation when no appointment is
linked. -/
theorem complete_payment_confirms_operation
    (now : String) (db : DB) (pid : Nat) (txn : Option String) (u : CurrentUser)
    (p : Payment) (h : (db.payments.filter fun q => q.id == pid).head? = some p)
    (hA : pyTruthyNat p.appointment_id = false)
    (hO : pyTruthyNat p.operation_id = true) :
    ∀ o ∈ (complete_payment now db pid txn u).1.operations,
      some o.id = p.operation_id → o.status = "confirmed" := by
  unfold complete_payment
  rw [h]
  simp only []
  rw [if_neg (by simp [hA]), if_pos hO]
  intro o ho hid
  simp only [List.mem_map] at ho
  obtain ⟨x, hx, rfl⟩ := ho
  by_cases hxp : (some x.id == p.operation_id) = true
  · rw [if_pos hxp]
  · exfalso
    rw [if_neg hxp] at hid
    exact hxp (beq_iff_eq.mpr hid)

/-- When the gateway reports a payment as `authorized`,
`verify_payment_manually` overwrites the stored status with `PENDING` — even
if the payment was already terminal. -/
theorem verify_manual_overwrites_to_pending
    (now : String) (rzpFetch : String → Option RzpPaymentDetails) (db : DB)
    (pid : Nat) (doc : CurrentUser) (p : Payment) (rzp : RzpPaymentDetails)
    (h : (db.payments.filter fun q => q.id == pid).head? = some p)
    (hT : pyTruthyStr p.razorpay_payment_id = true)
    (hF : rzpFetch (pyStr p.razorpay_payment_id) = some rzp)
    (hS : rzp.status = some "authorized") :
    ∀ q ∈ (verify_payment_manually now rzpFetch db pid doc).1.payments, q.id = pid →
      q.status = "PENDING" := by
  unfold verify_payment_manually
  rw [h]
  simp only []
  rw [if_neg (fun hc => hc hT), hF]
  simp only [hS]
  have e1 : ((some "authorized" : Option String) == some "captured") = false := rfl
  have e2 : ((some "authorized" : Option String) == some "failed") = false := rfl
  have e3 : ((some "authorized" : Option String) == some "authorized") = true := rfl
  simp only [e1, e2, e3, Bool.false_eq_true, if_false, if_true]
  intro q hq hid
  simp only [List.mem_map] at hq
  obtain ⟨x, hx, rfl⟩ := hq
  by_cases hxp : (x.id == pid) = true
  · rw [if_pos hxp]
  · exfalso
    rw [if_neg hxp] at hid
    exact hxp (beq_iff_eq.mpr hid)

/-- C9: `complete_payment` performs no ownership or role check: its outcome
is identical for any two authenticated callers, and for every existing
payment — whatever its current status and whoever owns it — it reports
success, sets the payment to `COMPLETED`, and confirms the linked
appointment (resp. operation). -/
theorem c9_complete_payment_no_authz :
    ∀ (now : String) (db : DB) (pid : Nat) (txn : Option String)
      (u₁ u₂ : CurrentUser) (p : Payment),
      (db.payments.filter fun q => q.id == pid).head? = some p →
      complete_payment now db pid txn u₁ = complete_payment now db pid txn u₂ ∧
      (complete_payment now db pid txn u₁).2 = .ok ⟨"Payment marked as completed"⟩ ∧
      (∀ q ∈ (complete_payment now db pid txn u₁).1.payments, q.id = pid →
        q.status = "COMPLETED") ∧
      (pyTruthyNat p.appointment_id = true →
        ∀ a ∈ (complete_payment now db pid txn u₁).1.appointments,
          some a.id = p.appointment_id → a.status = "confirmed") ∧
      (pyTruthyNat p.appointment_id = false → pyTruthyNat p.operation_id = true →
        ∀ o ∈ (complete_payment now db pid txn u₁).1.operations,
          some o.id = p.operation_id → o.status = "confirmed") := by
  intro now db pid txn u₁ u₂ p h
  exact ⟨rfl, complete_payment_result_ok now db pid txn u₁ p h,
    complete_payment_sets_completed now db pid txn u₁ p h,
    fun hA => complete_payment_confirms_appointment now db pid txn u₁ p h hA,
    fun hA hO => complete_payment_confirms_operation now db pid txn u₁ p h hA hO⟩

/-- C9 (witness): patient B neither owns payment 5 of `dbHook` nor holds a
doctor/admin role, yet their `complete_payment` call completes it and
confirms appointment 11. -/
theorem c9_witness :
    (dbHook.payments.filter fun q => q.id == 5).head? = some pendingPayment ∧
    ((complete_payment "t" dbHook 5 none patientB).2 =
      .ok ⟨"Payment marked as completed"⟩ ∧
    (∀ q ∈ (complete_payment "t" dbHook 5 none patientB).1.payments, q.id = 5 →
      q.status = "COMPLETED") ∧
    (pyTruthyNat pendingPayment.appointment_id = true →
      ∀ a ∈ (complete_payment "t" dbHook 5 none patientB).1.appointments,
        some a.id = pendingPayment.appointment_id → a.status = "confirmed")) :=
  ⟨rfl, (c9_complete_payment_no_authz "t" dbHook 5 none patientB patientA
      pendingPayment rfl).2.1,
    (c9_complete_payment_no_authz "t" dbHook 5 none patientB patientA
      pendingPayment rfl).2.2.1,
    (c9_complete_payment_no_authz "t" dbHook 5 none patientB patientA
      pendingPayment rfl).2.2.2.1⟩

/-- C2 (amended): payment status transitions are not terminally monotonic —
`complete_payment` sets any existing payment to `COMPLETED` regardless of
its current status (including `FAILED`), and `verify_payment_manually`
unconditionally overwrites the stored status with the gateway-derived one,
reverting even a `COMPLETED`/`FAILED` payment to `PENDING` when the gateway
reports it as `authorized`. -/
theorem c2_amended_not_monotonic :
    (∀ (now : String) (db : DB) (pid : Nat) (txn : Option String)
      (u : CurrentUser) (p : Payment),
      (db.payments.filter fun q => q.id == pid).head? = some p →
      ∀ q ∈ (complete_payment now db pid txn u).1.payments, q.id = pid →
        q.status = "COMPLETED") ∧
    (∀ (now : String) (rzpFetch : String → Option RzpPaymentDetails) (db : DB)
      (pid : Nat) (doc : CurrentUser) (p : Payment) (rzp : RzpPaymentDetails),
      (db.payments.filter fun q => q.id == pid).head? = some p →
      pyTruthyStr p.razorpay_payment_id = true →
      rzpFetch (pyStr p.razorpay_payment_id) = some rzp →
      rzp.status = some "authorized" →
      ∀ q ∈ (verify_payment_manually now rzpFetch db pid doc).1.payments, q.id = pid →
        q.status = "PENDING") :=
  ⟨fun now db pid txn u p h =>
      complete_payment_sets_completed now db pid txn u p h,
    fun now f db pid doc p rzp h hT hF hS =>
      verify_manual_overwrites_to_pending now f db pid doc p rzp h hT hF hS⟩

/-- C2 (witness): the `FAILED` payment of `dbFailed` is completed by
`complete_payment`, and the `COMPLETED` payment of `dbCompleted` is pushed
back to `PENDING` by `verify_payment_manually` when Razorpay reports it as
`authorized`. -/
theorem c2_witness :
    (∀ q ∈ (complete_payment "t1" dbFailed 1 none patientB).1.payments, q.id = 1 →
      q.status = "COMPLETED") ∧
    (∀ q ∈ (verify_payment_manually "t2" fetchAuth dbCompleted 3 patientA).1.payments,
      q.id = 3 → q.status = "PENDING") :=
  ⟨c2_amended_not_monotonic.1 "t1" dbFailed 1 none patientB failedPayment rfl,
    c2_amended_not_monotonic.2 "t2" fetchAuth dbCompleted 3 patientA
      completedPayment rzpAuth rfl rfl rfl rfl⟩

/-- C1 (amended): in a sequential execution `process_booking` does reject
with 400 "Time slot already booked" — leaving the store untouched — every
request whose (doctor, date, slot) tuple already has a non-cancelled
appointment; but the conflict `SELECT` and the `INSERT` are two separate
store operations with no atomicity between them, so the at-most-one
invariant can be violated by interleaved requests (see the
counterexample). -/
theorem c1_amended_sequential_conflict :
    ∀ (today : Nat) (hash : String) (db : DB)
      (data : AppointmentService.AppointmentData) (u : CurrentUser) (g : Bool)
      (d : Doctor) (hosp : Hospital),
      AppointmentService.is_valid_time_slot data.time_slot = true →
      ¬ data.date < today →
      (db.doctors.filter fun x => x.id == data.doctor_id && x.is_active).head? = some d →
      pyTruthyNat d.hospital_id = true →
      (pyTruthyNat u.hospital_id = false ∨
        u.hospital_id.getD 0 = d.hospital_id.getD 0) →
      (db.hospitals.filter fun x => x.id == d.hospital_id.getD 0).head? = some hosp →
      (hosp.status != "approved" && hosp.status != "ACTIVE") = false →
      (AppointmentService.conflictSelect db data.doctor_id data.date
        data.time_slot).isEmpty = false →
      AppointmentService.process_booking today hash db data u g =
        (db, .error (400, "Time slot already booked")) := by
  intro today hash db data u g d hosp h1 h2 h3 h4 h5 h6 h7 h8
  unfold AppointmentService.process_booking AppointmentService.bookingCheckPhase
  rw [if_neg (fun hc => hc h1), if_neg h2, h3]
  simp only []
  rw [if_neg (fun hc => hc h4)]
  have h5' : (¬ g && pyTruthyNat u.hospital_id &&
      (u.hospital_id.getD 0 != d.hospital_id.getD 0) : Bool) = false := by
    rcases h5 with h5 | h5
    · simp [h5]
    · simp [h5]
  rw [if_neg (fun hc => Bool.false_ne_true (h5'.symm.trans hc))]
  rw [h6]
  simp only []
  rw [if_neg (fun hc => Bool.false_ne_true (h7.symm.trans hc))]
  rw [if_pos (fun hc => Bool.false_ne_true (h8.symm.trans hc))]

/-- C1 (witness): with `apt11` occupying the slot, a second sequential
booking request for it is rejected and the store is unchanged. -/
theorem c1_witness :
    AppointmentService.process_booking 100 "h" dbConflict bookingData patientA false =
      (dbConflict, .error (400, "Time slot already booked")) :=
  c1_amended_sequential_conflict 100 "h" dbConflict bookingData patientA false
    doctor7 hospital3 rfl (by decide) rfl rfl (Or.inl rfl) rfl rfl rfl

/-- C8 (amended): the payout split is attempted only for appointment-linked
payments — `_process_split` resolves the hospital solely through
`appointment_id`, so an operation-linked captured payment triggers no
transfer even when its hospital has a linked payout account (see the
counterexample).  For an appointment-linked payment whose hospital has a
truthy linked account, the attempted transfer is
`int(int(amount*100) * (1 - PLATFORM_COMMISSION_RATE))` paise — i.e.
`⌊9·capturedPaise/10⌋`, which for a captured amount of 500.00 INR is
exactly 45000 paise (90%). -/
theorem c8_amended_split :
    (∀ (db : DB) (p : Payment) (gwid : String) (a : Appointment) (hosp : Hospital)
      (lid : String),
      pyTruthyNat p.appointment_id = true →
      (db.appointments.filter fun x => some x.id == p.appointment_id).head? = some a →
      a.hospital_id ≠ 0 →
      (db.hospitals.filter fun x => x.id == a.hospital_id).head? = some hosp →
      hosp.linked_account_id = some lid → lid ≠ "" →
      PaymentService.process_split db p gwid =
        some ⟨gwid, lid, pyInt ((pyInt (p.amount * 100) : ℚ) *
          (1 - PLATFORM_COMMISSION_RATE))⟩) ∧
    (∀ q : ℚ, 0 ≤ q →
      pyInt ((pyInt (q * 100) : ℚ) * (1 - PLATFORM_COMMISSION_RATE)) =
        ⌊(9 * (⌊q * 100⌋ : ℚ)) / 10⌋) ∧
    pyInt ((pyInt ((500 : ℚ) * 100) : ℚ) * (1 - PLATFORM_COMMISSION_RATE)) = 45000 ∧
    (∀ (db : DB) (p : Payment) (gwid : String),
      pyTruthyNat p.appointment_id = false →
      PaymentService.process_split db p gwid = none) := by
  refine ⟨?_, ?_, ?_, ?_⟩
  · intro db p gwid a hosp lid hA hfa hnz hfh hlid hne
    unfold PaymentService.process_split
    rw [if_pos hA, hfa]
    simp only []
    rw [if_neg (by simp [pyTruthyNat, hnz])]
    simp only [Option.getD_some]
    rw [hfh]
    simp only [hlid]
    rw [if_neg (by simp [pyTruthyStr, hne])]
    exact rfl
  · intro q hq
    have h100 : (0:ℚ) ≤ q * 100 := by positivity
    have hfl : (0:ℚ) ≤ (⌊q * 100⌋ : ℚ) * (1 - PLATFORM_COMMISSION_RATE) := by
      have : (0:ℤ) ≤ ⌊q * 100⌋ := Int.floor_nonneg.mpr h100
      have h0 : (0:ℚ) ≤ (⌊q * 100⌋ : ℚ) := by exact_mod_cast this
      have h9 : (0:ℚ) ≤ 1 - PLATFORM_COMMISSION_RATE := by
        unfold PLATFORM_COMMISSION_RATE; norm_num
      exact mul_nonneg h0 h9
    unfold pyInt
    rw [if_pos h100, if_pos hfl]
    congr 1
    unfold PLATFORM_COMMISSION_RATE
    ring
  · norm_num [pyInt, PLATFORM_COMMISSION_RATE]
  · intro db p gwid hA
    unfold PaymentService.process_split
    rw [if_neg (fun hc => Bool.false_ne_true (hA.symm.trans hc))]
    rw [if_pos (by decide)]

/-- C8 (witness): for the appointment-linked 500.00 INR payment of `dbHook`
the attempted transfer is exactly 45000 paise to `acc_XY`; for the
operation-linked `opPayment` no transfer is attempted. -/
theorem c8_witness :
    PaymentService.process_split dbHook pendingPayment "pay_1" =
      some ⟨"pay_1", "acc_XY", 45000⟩ ∧
    PaymentService.process_split dbSplit opPayment "pay_9" = none := by
  constructor
  · rw [c8_amended_split.1 dbHook pendingPayment "pay_1" apt11 hospital3
      "acc_XY" rfl rfl (by decide) rfl rfl (by decide)]
    have h500 := c8_amended_split.2.2.1
    exact congrArg (fun z => some (⟨"pay_1", "acc_XY", z⟩ : TransferCall)) h500
  · exact c8_amended_split.2.2.2 dbSplit opPayment "pay_9" rfl

/-- Whenever credentials are missing, the response is non-2xx, or the
request raises, `PaymentGateway.create_order` silently returns the UPI
fallback order instead of failing. -/
theorem create_order_unavailable :
    ∀ (env : GatewayEnv) (outcome : GatewayOutcome) (nowTs : Nat) (amount : ℚ)
      (currency : String) (receipt : Option String),
      PaymentGateway.gatewayUnavailable env outcome →
      PaymentGateway.create_order env outcome nowTs amount currency receipt =
        PaymentGateway.createUpiOrder nowTs amount := by
  intro env outcome nowTs amount currency receipt h
  unfold PaymentGateway.create_order
  by_cases hc : (env.key_id == "" || env.key_secret == "") = true
  · rw [if_pos hc]
  · rw [if_neg hc]
    rcases h with h | h | h | ⟨c, oid, rfl, h1, h2⟩
    · exact absurd (by simp [h]) hc
    · exact absurd (by simp [h]) hc
    · rw [h]
    · simp only []
      rw [if_neg (by simp [h1, h2])]

/-- C3 (amended): when gateway order creation fails in a
transient/unavailable way (missing credentials, non-2xx, transport error),
`create_razorpay_order` does not surface a retryable error: the adapter
falls back to a `UPI_<timestamp>` pseudo-order, the route persists a new
`PENDING` payment row carrying that order id, and the caller receives a
success response. -/
theorem c3_amended_upi_fallback :
    ∀ (env : GatewayEnv) (outcome : GatewayOutcome) (md5hex8 : String → String)
      (ts : Nat) (now : String) (db : DB) (od : RazorpayOrderCreate)
      (u : CurrentUser) (hid? : Option Nat),
      PaymentGateway.gatewayUnavailable env outcome →
      (pyTruthyNat od.appointment_id || pyTruthyNat od.operation_id ||
        od.hospital_registration) = true →
      ¬ od.amount ≤ 0 →
      resolveBookingHospital db od u = .ok hid? →
      pyTruthyNat hid? = true →
      (db.payments.filter fun p => p.internal_transaction_id ==
        some (RazorpayService.generate_idempotency_key md5hex8 u.id
          od.appointment_id od.operation_id ts)).head? = none →
      (create_razorpay_order env outcome md5hex8 ts now db od u).result =
        .ok ⟨db.nextId, "UPI_" ++ toString ts, od.amount, od.currency,
          env.key_id, "PENDING"⟩ ∧
      ∃ rec : Payment,
        (create_razorpay_order env outcome md5hex8 ts now db od u).db.payments =
          db.payments ++ [rec] ∧
        rec.status = "PENDING" ∧
        rec.razorpay_order_id = some ("UPI_" ++ toString ts) ∧
        rec.internal_transaction_id =
          some (RazorpayService.generate_idempotency_key md5hex8 u.id
            od.appointment_id od.operation_id ts) := by
  intro env outcome md5hex8 ts now db od u hid? hun hpres hamt hres hhid hnone
  unfold create_razorpay_order
  rw [if_neg (fun hc => hc hpres), if_neg hamt, hres]
  simp only []
  rw [if_neg (fun hc => hc hhid), hnone]
  unfold RazorpayService.create_razorpay_order
  simp only []
  rw [create_order_unavailable env outcome ts od.amount od.currency _ hun]
  simp only [PaymentGateway.createUpiOrder]
  exact ⟨rfl, _, rfl, rfl, rfl, rfl⟩

/-- C3 (witness): a transport exception during order creation for
appointment 11 still yields a success response with a `UPI_...` order id and
a freshly persisted `PENDING` payment row. -/
theorem c3_witness :
    (create_razorpay_order envRzp .exn md5c 1700000000 "t" dbOrder orderReqA
        patientA).result =
      .ok ⟨dbOrder.nextId, "UPI_" ++ toString 1700000000, orderReqA.amount,
        orderReqA.currency, envRzp.key_id, "PENDING"⟩ ∧
    ∃ rec : Payment,
      (create_razorpay_order envRzp .exn md5c 1700000000 "t" dbOrder orderReqA
        patientA).db.payments = dbOrder.payments ++ [rec] ∧
      rec.status = "PENDING" ∧
      rec.razorpay_order_id = some ("UPI_" ++ toString 1700000000) ∧
      rec.internal_transaction_id = some (RazorpayService.generate_idempotency_key
        md5c patientA.id orderReqA.appointment_id orderReqA.operation_id
        1700000000) :=
  c3_amended_upi_fallback envRzp .exn md5c 1700000000 "t" dbOrder orderReqA patientA
    (some 3) (Or.inr (Or.inr (Or.inl rfl))) rfl (by decide) rfl rfl rfl

/-- C4: order creation is idempotent when the idempotency keys coincide.
First half: a call that finds no payment under its key calls the gateway,
inserts exactly one `PENDING` row carrying the key and the gateway order
id, and returns that order id — and the new row is what a later lookup
under the same key finds.  Second half: a call that finds a payment under
its key with a truthy gateway order id returns that same order id, leaves
the store untouched, and makes no gateway call. -/
theorem c4_create_order_idempotent :
    (∀ (env : GatewayEnv) (outcome : GatewayOutcome) (md5hex8 : String → String)
      (ts : Nat) (now : String) (db : DB) (od : RazorpayOrderCreate)
      (u : CurrentUser) (hid? : Option Nat) (od1 : OrderDict),
      (pyTruthyNat od.appointment_id || pyTruthyNat od.operation_id ||
        od.hospital_registration) = true →
      ¬ od.amount ≤ 0 →
      resolveBookingHospital db od u = .ok hid? →
      pyTruthyNat hid? = true →
      (db.payments.filter fun p => p.internal_transaction_id ==
        some (RazorpayService.generate_idempotency_key md5hex8 u.id
          od.appointment_id od.operation_id ts)).head? = none →
      RazorpayService.create_razorpay_order env outcome md5hex8 ts od.amount
        od.currency u.id od.appointment_id od.operation_id = some od1 →
      od1.order_id ≠ "" →
      (create_razorpay_order env outcome md5hex8 ts now db od u).gatewayCalled = true ∧
      (create_razorpay_order env outcome md5hex8 ts now db od u).result =
        .ok ⟨db.nextId, od1.order_id, od.amount, od.currency,
          od1.key_id.getD env.key_id, "PENDING"⟩ ∧
      ∃ rec : Payment,
        (create_razorpay_order env outcome md5hex8 ts now db od u).db.payments =
          db.payments ++ [rec] ∧
        rec.razorpay_order_id = some od1.order_id ∧
        ((create_razorpay_order env outcome md5hex8 ts now db od u).db.payments.filter
          fun p => p.internal_transaction_id ==
            some (RazorpayService.generate_idempotency_key md5hex8 u.id
              od.appointment_id od.operation_id ts)).head? = some rec ∧
        pyTruthyStr rec.razorpay_order_id = true) ∧
    (∀ (env : GatewayEnv) (outcome : GatewayOutcome) (md5hex8 : String → String)
      (ts : Nat) (now : String) (db₂ : DB) (od : RazorpayOrderCreate)
      (u : CurrentUser) (hid? : Option Nat) (p : Payment),
      (pyTruthyNat od.appointment_id || pyTruthyNat od.operation_id ||
        od.hospital_registration) = true →
      ¬ od.amount ≤ 0 →
      resolveBookingHospital db₂ od u = .ok hid? →
      pyTruthyNat hid? = true →
      (db₂.payments.filter fun q => q.internal_transaction_id ==
        some (RazorpayService.generate_idempotency_key md5hex8 u.id
          od.appointment_id od.operation_id ts)).head? = some p →
      pyTruthyStr p.razorpay_order_id = true →
      (create_razorpay_order env outcome md5hex8 ts now db₂ od u).db = db₂ ∧
      (create_razorpay_order env outcome md5hex8 ts now db₂ od u).gatewayCalled = false ∧
      (create_razorpay_order env outcome md5hex8 ts now db₂ od u).result =
        .ok ⟨p.id, p.razorpay_order_id.getD "", p.amount, p.currency,
          env.key_id, p.status⟩) := by
  constructor
  · intro env outcome md5hex8 ts now db od u hid? od1 hpres hamt hres hhid hnone
      hord hne
    have hfilnil : (db.payments.filter fun p => p.internal_transaction_id ==
        some (RazorpayService.generate_idempotency_key md5hex8 u.id
          od.appointment_id od.operation_id ts)) = [] :=
      List.head?_eq_none_iff.mp hnone
    unfold create_razorpay_order
    rw [if_neg (fun hc => hc hpres), if_neg hamt, hres]
    simp only []
    rw [if_neg (fun hc => hc hhid), hnone]
    simp only []
    rw [hord]
    simp only []
    refine ⟨trivial, trivial, ⟨_, rfl, rfl, ?_, ?_⟩⟩
    · rw [List.filter_append, hfilnil]
      simp [beq_self_eq_true]
    · simp [pyTruthyStr, hne]
  · intro env outcome md5hex8 ts now db₂ od u hid? p hpres hamt hres hhid hfind hp
    unfold create_razorpay_order
    rw [if_neg (fun hc => hc hpres), if_neg hamt, hres]
    simp only []
    rw [if_neg (fun hc => hc hhid), hfind]
    simp only []
    rw [if_pos hp]
    exact ⟨rfl, rfl, rfl⟩

/-- C4 (witness): the first call for appointment 11 (key `keyA`) inserts
`recA` with gateway order `ord_9`; the second call with the same key — even
while the gateway is down — returns the same order id, leaves the store
unchanged, and makes no gateway call. -/
theorem c4_witness :
    (create_razorpay_order envRzp (.resp 200 "ord_9") md5c 1700000000 "t1" dbOrder
        orderReqA patientA).db = dbOrder2 ∧
    (create_razorpay_order envRzp (.resp 200 "ord_9") md5c 1700000000 "t1" dbOrder
        orderReqA patientA).result =
      .ok ⟨dbOrder.nextId, od1Fix.order_id, orderReqA.amount, orderReqA.currency,
        od1Fix.key_id.getD envRzp.key_id, "PENDING"⟩ ∧
    (create_razorpay_order envRzp (.resp 503 "down") md5c 1700000000 "t2" dbOrder2
        orderReqA patientA).db = dbOrder2 ∧
    (create_razorpay_order envRzp (.resp 503 "down") md5c 1700000000 "t2" dbOrder2
        orderReqA patientA).gatewayCalled = false ∧
    (create_razorpay_order envRzp (.resp 503 "down") md5c 1700000000 "t2" dbOrder2
        orderReqA patientA).result =
      .ok ⟨recA.id, recA.razorpay_order_id.getD "", recA.amount, recA.currency,
        envRzp.key_id, recA.status⟩ :=
  ⟨rfl,
   (c4_create_order_idempotent.1 envRzp (.resp 200 "ord_9") md5c 1700000000 "t1"
     dbOrder orderReqA patientA (some 3) od1Fix rfl (by decide) rfl rfl rfl rfl
     (by decide)).2.1,
   (c4_create_order_idempotent.2 envRzp (.resp 503 "down") md5c 1700000000 "t2"
     dbOrder2 orderReqA patientA (some 3) recA rfl (by decide) rfl rfl rfl rfl).1,
   (c4_create_order_idempotent.2 envRzp (.resp 503 "down") md5c 1700000000 "t2"
     dbOrder2 orderReqA patientA (some 3) recA rfl (by decide) rfl rfl rfl rfl).2.1,
   (c4_create_order_idempotent.2 envRzp (.resp 503 "down") md5c 1700000000 "t2"
     dbOrder2 orderReqA patientA (some 3) recA rfl (by decide) rfl rfl rfl rfl).2.2⟩

/-- C6: a webhook delivery whose raw body does not HMAC-verify against the
signature header (a tampered body under an unchanged signature) is rejected
before any store access: the state is unchanged and an error body is
returned (with HTTP 200, since the handler answers through plain dicts). -/
theorem c6_tampered_body_rejected :
    ∀ (env : GatewayEnv) (hmacSha256 : String → String → String)
      (parseJson : String → Option WebhookPayload)
      (compactDumps : WebhookPayload → String)
      (rzpFetch : String → Option RzpPaymentDetails) (now : String)
      (db : DB) (rawBody : String) (sig : String),
      hmacSha256 env.webhook_secret rawBody ≠ sig →
      (razorpay_webhook env hmacSha256 parseJson compactDumps rzpFetch now db
        rawBody (some sig)).1 = db ∧
      (razorpay_webhook env hmacSha256 parseJson compactDumps rzpFetch now db
        rawBody (some sig)).2.status = "error" ∧
      (razorpay_webhook env hmacSha256 parseJson compactDumps rzpFetch now db
        rawBody (some sig)).2.http = 200 := by
  intro env hm pj cd fetch now db rawBody sig h
  unfold razorpay_webhook
  rcases hpj : pj rawBody with _ | payload
  · exact ⟨rfl, rfl, rfl⟩
  · simp only []
    have hv : PaymentGateway.verify_webhook_signature hm env rawBody sig = false := by
      unfold PaymentGateway.verify_webhook_signature
      by_cases hs : (env.webhook_secret == "") = true
      · rw [if_pos hs]
      · rw [if_neg hs]
        exact beq_eq_false_iff_ne.mpr h
    rw [if_pos (fun hc => Bool.false_ne_true (hv.symm.trans hc))]
    exact ⟨rfl, rfl, rfl⟩

/-- C6 (witness): a delivery of the body `"RAW"` with the unrelated
signature `"BAD"` leaves `dbHook` unchanged and is answered with an error
body. -/
theorem c6_witness :
    (razorpay_webhook envRzp hmacC parseC dumpsC fetchC "T" dbHook
      "RAW" (some "BAD")).1 = dbHook ∧
    (razorpay_webhook envRzp hmacC parseC dumpsC fetchC "T" dbHook
      "RAW" (some "BAD")).2.status = "error" ∧
    (razorpay_webhook envRzp hmacC parseC dumpsC fetchC "T" dbHook
      "RAW" (some "BAD")).2.http = 200 :=
  c6_tampered_body_rejected envRzp hmacC parseC dumpsC fetchC "T" dbHook
    "RAW" "BAD" (by decide)

/-- C10: the webhook path verifies the signature twice against two different
messages — the raw request body, and (inside `process_webhook_event`) the
compact `json.dumps` re-serialisation of the parsed payload.  First half: a
delivery whose signature does not match the HMAC of the compact
re-serialisation is never applied (rejected, state unchanged).  Second
half: a validly signed delivery (signature = HMAC of the raw body, secret
configured) whose raw body differs from its compact re-serialisation is
rejected with "Invalid webhook signature" and no state change — assuming
the keyed hash is collision-free (injective in the message), as HMAC-SHA256
is in practice. -/
theorem c10_double_signature_check :
    ∀ (env : GatewayEnv) (hm : String → String → String)
      (pj : String → Option WebhookPayload) (cd : WebhookPayload → String)
      (fetch : String → Option RzpPaymentDetails) (now : String)
      (db : DB) (rawBody : String) (sig : String) (payload : WebhookPayload),
      pj rawBody = some payload →
      (hm env.webhook_secret (cd payload) ≠ sig →
        (razorpay_webhook env hm pj cd fetch now db rawBody (some sig)).1 = db ∧
        (razorpay_webhook env hm pj cd fetch now db rawBody (some sig)).2.status =
          "error") ∧
      (env.webhook_secret ≠ "" →
        hm env.webhook_secret rawBody = sig →
        rawBody ≠ cd payload →
        Function.Injective (hm env.webhook_secret) →
        razorpay_webhook env hm pj cd fetch now db rawBody (some sig) =
          (db, ⟨200, "error", "Invalid webhook signature"⟩)) := by
  intro env hm pj cd fetch now db rawBody sig payload hpj
  constructor
  · intro hcomp
    unfold razorpay_webhook
    rw [hpj]
    simp only []
    by_cases hvraw : PaymentGateway.verify_webhook_signature hm env rawBody sig = true
    · rw [if_neg (fun hc => hc hvraw)]
      have hv2 : PaymentGateway.verify_webhook_signature hm env (cd payload) sig
          = false := by
        unfold PaymentGateway.verify_webhook_signature
        by_cases hs : (env.webhook_secret == "") = true
        · rw [if_pos hs]
        · rw [if_neg hs]
          exact beq_eq_false_iff_ne.mpr hcomp
      unfold RazorpayService.process_webhook_event
      rw [if_pos (fun hc => Bool.false_ne_true (hv2.symm.trans hc))]
      exact ⟨rfl, rfl⟩
    · rw [if_pos hvraw]
      exact ⟨rfl, rfl⟩
  · intro hsecret hraw hne hinj
    have hcomp : hm env.webhook_secret (cd payload) ≠ sig := by
      intro hq
      exact hne (hinj (hraw.trans hq.symm))
    unfold razorpay_webhook
    rw [hpj]
    simp only []
    have hvraw : PaymentGateway.verify_webhook_signature hm env rawBody sig = true := by
      unfold PaymentGateway.verify_webhook_signature
      rw [if_neg (by simp [hsecret])]
      exact beq_iff_eq.mpr hraw
    rw [if_neg (fun hc => hc hvraw)]
    have hv2 : PaymentGateway.verify_webhook_signature hm env (cd payload) sig
        = false := by
      unfold PaymentGateway.verify_webhook_signature
      rw [if_neg (by simp [hsecret])]
      exact beq_eq_false_iff_ne.mpr hcomp
    unfold RazorpayService.process_webhook_event
    rw [if_pos (fun hc => Bool.false_ne_true (hv2.symm.trans hc))]

/-- C10 (witness): with the identity as (injective) keyed hash, a delivery
of raw body `"R"` signed as `"R"` whose compact re-serialisation is `"C"`
passes the raw-body check but fails the re-serialisation check and is
rejected with no state change. -/
theorem c10_witness :
    razorpay_webhook envRzp (fun _ m => m) (fun _ => some payloadCap)
      (fun _ => "C") fetchC "T" dbHook "R" (some "R") =
      (dbHook, ⟨200, "error", "Invalid webhook signature"⟩) :=
  (c10_double_signature_check envRzp (fun _ m => m) (fun _ => some payloadCap)
    (fun _ => "C") fetchC "T" dbHook "R" "R" payloadCap rfl).2
    (by decide) rfl (by decide) (fun a b h => h)

/-- A string with a non-empty prefix is non-empty. -/
theorem append_ne_empty (s t : String) (hs : s.length ≠ 0) : s ++ t ≠ "" := by
  intro h
  have hl := congrArg String.length h
  rw [String.length_append, String.length_empty] at hl
  omega

/-- `process_webhook_event` succeeds and extracts the event fields when the
compact re-serialisation verifies and the payload carries an entity and a
truthy event id. -/
theorem process_webhook_event_ok
    (hm : String → String → String) (env : GatewayEnv) (cd : WebhookPayload → String)
    (payload : WebhookPayload) (sig : String) (ent : PaymentEntity) (w : String)
    (hsecret : env.webhook_secret ≠ "")
    (hcompact : hm env.webhook_secret (cd payload) = sig)
    (hent : payload.entity = some ent)
    (hid : payload.id = some w) (hw : w ≠ "") :
    RazorpayService.process_webhook_event hm env cd payload sig =
      .ok ⟨w, payload.event, ent.id, ent.order_id, ent⟩ := by
  unfold RazorpayService.process_webhook_event
  have hv : PaymentGateway.verify_webhook_signature hm env (cd payload) sig = true := by
    unfold PaymentGateway.verify_webhook_signature
    rw [if_neg (by simp [hsecret])]
    exact beq_iff_eq.mpr hcompact
  rw [if_neg (fun hc => hc hv), hent]
  simp only []
  rw [hid]
  have ht : pyTruthyStr (some w) = true := by simp [pyTruthyStr, hw]
  rw [if_neg (fun hc => hc ht)]
  rfl

/-- The dedup check is false when no row carries the event id. -/
theorem check_idem_false (db : DB) (w : String)
    (h : ∀ r ∈ db.webhooks, r.webhook_id ≠ w) :
    RazorpayService.check_webhook_idempotency db w = false := by
  unfold RazorpayService.check_webhook_idempotency
  have hfil : db.webhooks.filter (fun r => r.webhook_id == w) = [] :=
    List.filter_eq_nil_iff.mpr (fun r hr => by simpa using h r hr)
  rw [hfil]
  rfl

/-- Once `mark_webhook_processed` has run for an event id that exists in the
table, the dedup check reports it as processed. -/
theorem check_idem_after_mark (now : String) (db : DB) (w : String)
    (pid : Option Nat) (err : Option String) (r0 : WebhookRow)
    (hr0 : r0 ∈ db.webhooks) (hw0 : r0.webhook_id = w) :
    RazorpayService.check_webhook_idempotency
      (RazorpayService.mark_webhook_processed now db w pid err) w = true := by
  unfold RazorpayService.check_webhook_idempotency RazorpayService.mark_webhook_processed
  simp only []
  generalize hl : db.webhooks = l at hr0
  clear hl
  revert hr0
  induction l with
  | nil => intro hr0; exact absurd hr0 (List.not_mem_nil r0)
  | cons r t ih =>
    intro hr0
    simp only [List.map_cons]
    by_cases hr : (r.webhook_id == w) = true
    · rw [if_pos hr]
      rw [List.filter_cons_of_pos (by exact hr)]
      rfl
    · rw [if_neg hr]
      rw [List.filter_cons_of_neg (by exact hr)]
      rcases List.mem_cons.mp hr0 with rfl | hr0t
      · exact absurd (beq_iff_eq.mpr hw0) hr
      · exact ih hr0t

/-- C7: a verified webhook whose gateway order id matches no payment row is
acknowledged with HTTP 200 (an error body), appointments, operations and
payments are untouched, and the event is recorded processed-with-error
("Payment not found for order ..."). -/
theorem c7_unknown_order_is_anomaly :
    ∀ (env : GatewayEnv) (hm : String → String → String)
      (pj : String → Option WebhookPayload) (cd : WebhookPayload → String)
      (fetch : String → Option RzpPaymentDetails) (now : String) (db : DB)
      (rawBody sig : String) (payload : WebhookPayload) (ent : PaymentEntity)
      (w o : String),
      pj rawBody = some payload →
      payload.id = some w → w ≠ "" →
      payload.entity = some ent →
      ent.order_id = some o →
      env.webhook_secret ≠ "" →
      hm env.webhook_secret rawBody = sig →
      hm env.webhook_secret (cd payload) = sig →
      (∀ r ∈ db.webhooks, r.webhook_id ≠ w) →
      db.nextId ≠ 0 →
      (∀ p ∈ db.payments, p.razorpay_order_id ≠ some o) →
      (razorpay_webhook env hm pj cd fetch now db rawBody (some sig)).2 =
        ⟨200, "error", "Payment not found"⟩ ∧
      (razorpay_webhook env hm pj cd fetch now db rawBody (some sig)).1.appointments =
        db.appointments ∧
      (razorpay_webhook env hm pj cd fetch now db rawBody (some sig)).1.operations =
        db.operations ∧
      (razorpay_webhook env hm pj cd fetch now db rawBody (some sig)).1.payments =
        db.payments ∧
      ∃ r ∈ (razorpay_webhook env hm pj cd fetch now db rawBody (some sig)).1.webhooks,
        r.webhook_id = w ∧ r.processed = true ∧
        r.processing_error = some ("Payment not found for order " ++ o) := by
  intro env hm pj cd fetch now db rawBody sig payload ent w o hpj hid hw hent hento
    hsecret hraw hcompact hnodup hnext hnopay
  unfold razorpay_webhook
  rw [hpj]
  simp only []
  have hvraw : PaymentGateway.verify_webhook_signature hm env rawBody sig = true := by
    unfold PaymentGateway.verify_webhook_signature
    rw [if_neg (by simp [hsecret])]
    exact beq_iff_eq.mpr hraw
  rw [if_neg (fun hc => hc hvraw)]
  rw [process_webhook_event_ok hm env cd payload sig ent w hsecret hcompact hent hid hw]
  simp only []
  rw [if_neg (fun hc =>
    Bool.false_ne_true ((check_idem_false db w hnodup).symm.trans hc))]
  unfold RazorpayService.save_webhook_event
  simp only []
  have htr : pyTruthyNat (some db.nextId) = true := by simp [pyTruthyNat, hnext]
  rw [if_neg (fun hc => hc htr)]
  rw [hento]
  have hfil : (db.payments.filter fun p => p.razorpay_order_id == some o) = [] :=
    List.filter_eq_nil_iff.mpr (fun p hp => by simpa using hnopay p hp)
  rw [hfil]
  simp only [List.head?_nil]
  refine ⟨trivial, rfl, rfl, rfl, ?_⟩
  unfold RazorpayService.mark_webhook_processed
  simp only []
  have hmsg : ("Payment not found for order " ++ pyStr (some o)) ≠ "" :=
    append_ne_empty _ _ (by decide)
  have hptr : pyTruthyStr (some ("Payment not found for order " ++ pyStr (some o)))
      = true := by simp [pyTruthyStr, hmsg]
  refine ⟨_, List.mem_map.mpr
    ⟨{ id := db.nextId, webhook_id := w, event_type := payload.event,
       payment_id := none, razorpay_payment_id := ent.id,
       razorpay_order_id := some o, signature_verified := true,
       processed := false, processed_at := none, processing_error := none },
     List.mem_append_right _ (List.mem_singleton.mpr rfl), rfl⟩, ?_, ?_, ?_⟩
  · simp only []
    rw [if_pos (by exact beq_self_eq_true w)]
  · simp only []
    rw [if_pos (by exact beq_self_eq_true w)]
  · simp only []
    rw [if_pos (by exact beq_self_eq_true w)]
    simp only [hptr, if_true]
    rfl

/-- C7 (witness): a verified `payment.captured` webhook for the unknown
order `ord_missing` against `dbHook` is acknowledged with HTTP 200, touches
no appointment/operation/payment, and is recorded processed-with-error. -/
theorem c7_witness :
    (razorpay_webhook envRzp hmacC parseMiss dumpsMiss fetchC "T" dbHook "RAWM"
      (some "whsec|RAWM")).2 = ⟨200, "error", "Payment not found"⟩ ∧
    (razorpay_webhook envRzp hmacC parseMiss dumpsMiss fetchC "T" dbHook "RAWM"
      (some "whsec|RAWM")).1.appointments = dbHook.appointments ∧
    (razorpay_webhook envRzp hmacC parseMiss dumpsMiss fetchC "T" dbHook "RAWM"
      (some "whsec|RAWM")).1.operations = dbHook.operations ∧
    (razorpay_webhook envRzp hmacC parseMiss dumpsMiss fetchC "T" dbHook "RAWM"
      (some "whsec|RAWM")).1.payments = dbHook.payments ∧
    ∃ r ∈ (razorpay_webhook envRzp hmacC parseMiss dumpsMiss fetchC "T" dbHook "RAWM"
      (some "whsec|RAWM")).1.webhooks,
      r.webhook_id = "evt_2" ∧ r.processed = true ∧
      r.processing_error = some ("Payment not found for order " ++ "ord_missing") :=
  c7_unknown_order_is_anomaly envRzp hmacC parseMiss dumpsMiss fetchC "T" dbHook
    "RAWM" "whsec|RAWM" payloadMiss ⟨some "pay_2", some "ord_missing", none, none⟩
    "evt_2" "ord_missing" rfl rfl (by decide) rfl rfl (by decide) rfl rfl
    (by decide) (by decide) (by decide)

/-- A delivery whose event id the dedup table already marks processed is
answered "Already processed" with no state change. -/
theorem replay_after_mark
    (env : GatewayEnv) (hm : String → String → String)
    (pj : String → Option WebhookPayload) (cd : WebhookPayload → String)
    (fetch : String → Option RzpPaymentDetails) (now₂ : String) (db' : DB)
    (rawBody sig : String) (payload : WebhookPayload) (ent : PaymentEntity)
    (w : String)
    (hpj : pj rawBody = some payload)
    (hid : payload.id = some w) (hw : w ≠ "")
    (hent : payload.entity = some ent)
    (hsecret : env.webhook_secret ≠ "")
    (hraw : hm env.webhook_secret rawBody = sig)
    (hcompact : hm env.webhook_secret (cd payload) = sig)
    (hchk : RazorpayService.check_webhook_idempotency db' w = true) :
    razorpay_webhook env hm pj cd fetch now₂ db' rawBody (some sig) =
      (db', ⟨200, "success", "Already processed"⟩) := by
  have hvraw : PaymentGateway.verify_webhook_signature hm env rawBody sig = true := by
    unfold PaymentGateway.verify_webhook_signature
    rw [if_neg (by simp [hsecret])]
    exact beq_iff_eq.mpr hraw
  unfold razorpay_webhook
  rw [hpj]
  simp only []
  rw [if_neg (fun hc => hc hvraw)]
  rw [process_webhook_event_ok hm env cd payload sig ent w hsecret hcompact hent hid hw]
  simp only []
  rw [if_pos hchk]

/-- C5: webhook application is exactly-once under replay.  A fresh verified
`payment.captured` delivery for a stored payment completes it, confirms the
linked appointment, and marks the dedup row processed; replaying the
identical delivery against the resulting store is a success-reported no-op
("Already processed", state unchanged), so across the two deliveries the
PENDING→CONFIRMED transition is applied exactly once and the payment ends
COMPLETED exactly once. -/
theorem c5_webhook_exactly_once :
    ∀ (env : GatewayEnv) (hm : String → String → String)
      (pj : String → Option WebhookPayload) (cd : WebhookPayload → String)
      (fetch : String → Option RzpPaymentDetails) (now now₂ : String) (db : DB)
      (rawBody sig : String) (payload : WebhookPayload) (ent : PaymentEntity)
      (w rpid o : String) (pay : Payment) (rzp : RzpPaymentDetails),
      pj rawBody = some payload →
      payload.id = some w → w ≠ "" →
      payload.entity = some ent →
      payload.event = some "payment.captured" →
      ent.id = some rpid →
      ent.order_id = some o →
      env.webhook_secret ≠ "" →
      hm env.webhook_secret rawBody = sig →
      hm env.webhook_secret (cd payload) = sig →
      (∀ r ∈ db.webhooks, r.webhook_id ≠ w) →
      db.nextId ≠ 0 →
      (db.payments.filter fun p => p.razorpay_order_id == some o).head? = some pay →
      pyTruthyNat pay.appointment_id = true →
      fetch rpid = some rzp →
      rzp.order_id = some o →
      rzp.amount / 100 = pay.amount →
      (razorpay_webhook env hm pj cd fetch now db rawBody (some sig)).2 =
        ⟨200, "success", "Webhook processed"⟩ ∧
      (∀ q ∈ (razorpay_webhook env hm pj cd fetch now db rawBody (some sig)).1.payments,
        q.id = pay.id → q.status = "COMPLETED") ∧
      (∀ a ∈ (razorpay_webhook env hm pj cd fetch now db rawBody
          (some sig)).1.appointments,
        some a.id = pay.appointment_id → a.status = "confirmed") ∧
      razorpay_webhook env hm pj cd fetch now₂
        (razorpay_webhook env hm pj cd fetch now db rawBody (some sig)).1
        rawBody (some sig) =
        ((razorpay_webhook env hm pj cd fetch now db rawBody (some sig)).1,
          ⟨200, "success", "Already processed"⟩) := by
  intro env hm pj cd fetch now now₂ db rawBody sig payload ent w rpid o pay rzp
    hpj hid hw hent hev hentid hento hsecret hraw hcompact hnodup hnext hfind hapt
    hfetch hrzpo hrzpa
  have hvraw : PaymentGateway.verify_webhook_signature hm env rawBody sig = true := by
    unfold PaymentGateway.verify_webhook_signature
    rw [if_neg (by simp [hsecret])]
    exact beq_iff_eq.mpr hraw
  unfold razorpay_webhook
  rw [hpj]
  simp only []
  rw [if_neg (fun hc => hc hvraw)]
  rw [process_webhook_event_ok hm env cd payload sig ent w hsecret hcompact hent hid hw]
  simp only []
  rw [if_neg (fun hc =>
    Bool.false_ne_true ((check_idem_false db w hnodup).symm.trans hc))]
  unfold RazorpayService.save_webhook_event
  simp only []
  have htr : pyTruthyNat (some db.nextId) = true := by simp [pyTruthyNat, hnext]
  rw [if_neg (fun hc => hc htr)]
  rw [hento, hfind]
  simp only []
  rw [hentid, show pyStr (some rpid) = rpid from rfl, hfetch]
  simp only []
  have hcv : ((rzp.order_id != some o) || (rzp.amount / 100 != pay.amount)) = false := by
    rw [hrzpo, hrzpa]
    simp
  rw [if_neg (fun hc => Bool.false_ne_true (hcv.symm.trans hc))]
  rw [if_pos (show (payload.event == some "payment.captured") = true by
    rw [hev]; exact beq_self_eq_true _)]
  rw [if_pos hapt]
  refine ⟨rfl, ?_, ?_, ?_⟩
  · intro q hq hid2
    simp only [RazorpayService.mark_webhook_processed] at hq
    simp only [List.mem_map] at hq
    obtain ⟨x, hx, rfl⟩ := hq
    by_cases hxp : (x.id == pay.id) = true
    · rw [if_pos hxp]
    · exfalso
      rw [if_neg hxp] at hid2
      exact hxp (beq_iff_eq.mpr hid2)
  · intro a ha hid2
    simp only [RazorpayService.mark_webhook_processed] at ha
    simp only [List.mem_map] at ha
    obtain ⟨x, hx, rfl⟩ := ha
    by_cases hxp : (some x.id == pay.appointment_id) = true
    · rw [if_pos hxp]
    · exfalso
      rw [if_neg hxp] at hid2
      exact hxp (beq_iff_eq.mpr hid2)
  · rw [if_neg (fun hc => hc hvraw)]
    simp only []
    split
    · rfl
    · rename_i hfalse
      exact absurd (check_idem_after_mark now _ w (some pay.id) none
        { id := db.nextId, webhook_id := w, event_type := payload.event,
          payment_id := none, razorpay_payment_id := some rpid,
          razorpay_order_id := some o, signature_verified := true,
          processed := false, processed_at := none, processing_error := none }
        (List.mem_append_right _ (List.mem_singleton.mpr rfl)) rfl) hfalse

/-- C5 (witness): the verified `payment.captured` delivery for order
`ord_1` against `dbHook` completes payment 5 and confirms appointment 11;
replaying the identical delivery afterwards answers "Already processed"
and changes nothing. -/
theorem c5_witness :
    (razorpay_webhook envRzp hmacC parseC dumpsC fetchC "T" dbHook "RAW"
      (some "whsec|RAW")).2 = ⟨200, "success", "Webhook processed"⟩ ∧
    (∀ q ∈ (razorpay_webhook envRzp hmacC parseC dumpsC fetchC "T" dbHook "RAW"
      (some "whsec|RAW")).1.payments, q.id = pendingPayment.id →
      q.status = "COMPLETED") ∧
    (∀ a ∈ (razorpay_webhook envRzp hmacC parseC dumpsC fetchC "T" dbHook "RAW"
      (some "whsec|RAW")).1.appointments,
      some a.id = pendingPayment.appointment_id → a.status = "confirmed") ∧
    razorpay_webhook envRzp hmacC parseC dumpsC fetchC "T2"
      (razorpay_webhook envRzp hmacC parseC dumpsC fetchC "T" dbHook "RAW"
        (some "whsec|RAW")).1 "RAW" (some "whsec|RAW") =
      ((razorpay_webhook envRzp hmacC parseC dumpsC fetchC "T" dbHook "RAW"
        (some "whsec|RAW")).1, ⟨200, "success", "Already processed"⟩) :=
  c5_webhook_exactly_once envRzp hmacC parseC dumpsC fetchC "T" "T2" dbHook "RAW"
    "whsec|RAW" payloadCap ⟨some "pay_1", some "ord_1", none, none⟩ "evt_1" "pay_1"
    "ord_1" pendingPayment rzpCap rfl rfl (by decide) rfl rfl rfl rfl (by decide)
    rfl rfl (by decide) (by decide) rfl rfl (by decide) rfl
    (by norm_num [rzpCap, pendingPayment, basePayment])
